/-
Verification of the projection calculator in `zenta_dashboard.py`.

The core of the repository is the single pure function `calculate_projections`
(source lines 6-31).  We embed it shallowly: Python numbers become exact
rationals (ℚ), Python list comprehensions become `List.map` / `List.mapM`,
and the three runtime failures the Python code can raise — `IndexError` on
out-of-range indexing, `ZeroDivisionError` on division by zero, and pandas'
`ValueError` when DataFrame columns have mismatched lengths — become an
`Except` monad, so the embedding records exactly where the source fails.

Each local list of the Python function (`total_units_in_market`,
`hardware_revenue`, `recurring_revenue`, `total_revenue`,
`cumulative_revenue`, `hardware_costs`, `recurring_costs`, `total_costs`,
`profit`, `profit_margin`, `roi`) is a top-level definition here, computed
exactly as the corresponding source line computes it, with dependencies
evaluated in source order so the first error matches the source's first
error.
-/
import Mathlib

/-- The runtime errors the Python function can raise:
`indexError` from `total_units_in_market[i]` when `units_sold` is shorter
than `years`; `zeroDivisionError` from the ROI division when
`initial_investment == 0`; `valueError` from `pd.DataFrame` when the
columns have different lengths. -/
inductive PyErr where
  | indexError
  | zeroDivisionError
  | valueError
  deriving DecidableEq, Repr

/-- The seven arguments of `calculate_projections` (source line 6-8). -/
structure ProjInputs where
  years : List Int
  units_sold : List Rat
  hardware_price : Rat
  hardware_cost : Rat
  subscription_fee : Rat
  subscription_cost : Rat
  initial_investment : Rat
  deriving DecidableEq, Repr

/-- One row of the returned DataFrame (source lines 20-31): the ten columns
`Year`, `Units Sold`, `Hardware Revenue`, `Recurring Revenue`,
`Total Revenue`, `Total Costs`, `Profit`, `Profit Margin`,
`Cumulative Revenue`, `ROI`. -/
structure ProjectionRow where
  year : Int
  units_sold : Rat
  hardware_revenue : Rat
  recurring_revenue : Rat
  total_revenue : Rat
  total_costs : Rat
  profit : Rat
  profit_margin : Rat
  cumulative_revenue : Rat
  roi : Rat
  deriving DecidableEq, Repr

/-- Python list indexing `l[i]` for a non-negative index: raises
`IndexError` when out of range. -/
def pyGet {α : Type} (l : List α) (i : Nat) : Except PyErr α :=
  match l[i]? with
  | some a => Except.ok a
  | none => Except.error PyErr.indexError

/-- Source line 9:
`total_units_in_market = [sum(units_sold[:i + 1]) for i in range(len(units_sold))]`. -/
def total_units_in_market (inp : ProjInputs) : List Rat :=
  (List.range inp.units_sold.length).map (fun i => (inp.units_sold.take (i + 1)).sum)

/-- Source line 10: `hardware_revenue = [units * hardware_price for units in units_sold]`. -/
def hardware_revenue (inp : ProjInputs) : List Rat :=
  inp.units_sold.map (fun units => units * inp.hardware_price)

/-- Source line 11:
`recurring_revenue = [total_units_in_market[i] * subscription_fee for i in range(len(years))]`. -/
def recurring_revenue (inp : ProjInputs) : Except PyErr (List Rat) :=
  (List.range inp.years.length).mapM (fun i => do
    let t ← pyGet (total_units_in_market inp) i
    pure (t * inp.subscription_fee))

/-- Source line 12:
`total_revenue = [hardware_revenue[i] + recurring_revenue[i] for i in range(len(years))]`. -/
def total_revenue (inp : ProjInputs) : Except PyErr (List Rat) := do
  let rr ← recurring_revenue inp
  (List.range inp.years.length).mapM (fun i => do
    let h ← pyGet (hardware_revenue inp) i
    let r ← pyGet rr i
    pure (h + r))

/-- Source line 13:
`cumulative_revenue = [sum(total_revenue[:i + 1]) for i in range(len(total_revenue))]`. -/
def cumulative_revenue (inp : ProjInputs) : Except PyErr (List Rat) := do
  let tr ← total_revenue inp
  pure ((List.range tr.length).map (fun i => (tr.take (i + 1)).sum))

/-- Source line 14: `hardware_costs = [units * hardware_cost for units in units_sold]`. -/
def hardware_costs (inp : ProjInputs) : List Rat :=
  inp.units_sold.map (fun units => units * inp.hardware_cost)

/-- Source line 15:
`recurring_costs = [total_units_in_market[i] * subscription_cost for i in range(len(years))]`. -/
def recurring_costs (inp : ProjInputs) : Except PyErr (List Rat) :=
  (List.range inp.years.length).mapM (fun i => do
    let t ← pyGet (total_units_in_market inp) i
    pure (t * inp.subscription_cost))

/-- Source line 16:
`total_costs = [hardware_costs[i] + recurring_costs[i] for i in range(len(years))]`. -/
def total_costs (inp : ProjInputs) : Except PyErr (List Rat) := do
  let rc ← recurring_costs inp
  (List.range inp.years.length).mapM (fun i => do
    let h ← pyGet (hardware_costs inp) i
    let r ← pyGet rc i
    pure (h + r))

/-- Source line 17: `profit = [total_revenue[i] - total_costs[i] for i in range(len(years))]`. -/
def profit (inp : ProjInputs) : Except PyErr (List Rat) := do
  let tr ← total_revenue inp
  let tc ← total_costs inp
  (List.range inp.years.length).mapM (fun i => do
    let r ← pyGet tr i
    let c ← pyGet tc i
    pure (r - c))

/-- Source line 18:
`profit_margin = [profit[i] / total_revenue[i] * 100 if total_revenue[i] > 0 else 0 for i in range(len(years))]`.
Note the guard is `total_revenue[i] > 0`, a strict comparison. -/
def profit_margin (inp : ProjInputs) : Except PyErr (List Rat) := do
  let tr ← total_revenue inp
  let p ← profit inp
  (List.range inp.years.length).mapM (fun i => do
    let t ← pyGet tr i
    if 0 < t then do
      let q ← pyGet p i
      pure (q / t * 100)
    else
      pure 0)

/-- Source line 19:
`roi = [(cumulative_revenue[i] - initial_investment) / initial_investment * 100 for i in range(len(years))]`.
Python raises `ZeroDivisionError` when `initial_investment == 0` and the
comprehension is non-empty. -/
def roi (inp : ProjInputs) : Except PyErr (List Rat) := do
  let cr ← cumulative_revenue inp
  (List.range inp.years.length).mapM (fun i => do
    let c ← pyGet cr i
    if inp.initial_investment = 0 then
      Except.error PyErr.zeroDivisionError
    else
      pure ((c - inp.initial_investment) / inp.initial_investment * 100))

/-- Source lines 6-31, the whole function: compute the eleven lists in
source order (so the first failure is the source's first failure), then
build the DataFrame; `pd.DataFrame` raises `ValueError` when the columns
(`years`, `units_sold`, `hardware_revenue` of length `len(units_sold)`,
the rest of length `len(years)`) disagree in length. -/
def calculate_projections (inp : ProjInputs) : Except PyErr (List ProjectionRow) := do
  let rr ← recurring_revenue inp
  let tr ← total_revenue inp
  let cr ← cumulative_revenue inp
  let _ ← recurring_costs inp
  let tc ← total_costs inp
  let p ← profit inp
  let pm ← profit_margin inp
  let r ← roi inp
  if inp.units_sold.length = inp.years.length then
    (List.range inp.years.length).mapM (fun i => do
      let y ← pyGet inp.years i
      let u ← pyGet inp.units_sold i
      let hr ← pyGet (hardware_revenue inp) i
      let rri ← pyGet rr i
      let tri ← pyGet tr i
      let tci ← pyGet tc i
      let pi ← pyGet p i
      let pmi ← pyGet pm i
      let cri ← pyGet cr i
      let ri ← pyGet r i
      pure { year := y, units_sold := u, hardware_revenue := hr,
             recurring_revenue := rri, total_revenue := tri, total_costs := tci,
             profit := pi, profit_margin := pmi, cumulative_revenue := cri,
             roi := ri })
  else
    Except.error PyErr.valueError

/-! ### Generic lemmas about `mapM` in the `Except` monad -/

/-- If `f` succeeds pointwise with values given by `g`, then `mapM f`
succeeds with the mapped list. -/
theorem mapM_ok_of_forall {α β : Type} {l : List α} {f : α → Except PyErr β} {g : α → β}
    (h : ∀ a ∈ l, f a = Except.ok (g a)) : l.mapM f = Except.ok (l.map g) := by
  induction l with
  | nil => rfl
  | cons a t ih =>
    rw [List.mapM_cons, h a (List.mem_cons_self a t),
      ih (fun b hb => h b (List.mem_cons_of_mem a hb))]
    rfl

/-- Specialisation to `List.range`. -/
theorem mapM_range_ok {β : Type} {n : Nat} {f : Nat → Except PyErr β} {g : Nat → β}
    (h : ∀ i, i < n → f i = Except.ok (g i)) :
    (List.range n).mapM f = Except.ok ((List.range n).map g) :=
  mapM_ok_of_forall (fun i hi => h i (List.mem_range.mp hi))

/-- If `mapM f` succeeds then `f` succeeds on every element of the list. -/
theorem exists_ok_of_mapM_ok {α β : Type} {l : List α} {f : α → Except PyErr β} {ys : List β}
    (h : l.mapM f = Except.ok ys) : ∀ a ∈ l, ∃ y, f a = Except.ok y := by
  induction l generalizing ys with
  | nil => intro a ha; cases ha
  | cons a t ih =>
    rw [List.mapM_cons] at h
    cases hfa : f a with
    | error e => rw [hfa] at h; exact absurd h (by intro hc; cases hc)
    | ok y =>
      rw [hfa] at h
      intro b hb
      rcases List.mem_cons.mp hb with hba | hbt
      · exact hba ▸ ⟨y, hfa⟩
      · cases hmt : t.mapM f with
        | error e => rw [hmt] at h; exact absurd h (by intro hc; cases hc)
        | ok zs => exact ih hmt b hbt

/-- If `f` fails on the head, `mapM` fails with the same error. -/
theorem mapM_cons_error {α β : Type} {a : α} {l : List α} {f : α → Except PyErr β}
    {e : PyErr} (h : f a = Except.error e) : (a :: l).mapM f = Except.error e := by
  rw [List.mapM_cons, h]; rfl

/-! ### Pointwise closed forms of the eleven lists

Each `...F` function gives the value the corresponding source line stores at
index `i` (for an in-range `i`), as a total function of the inputs. -/

/-- `total_units_in_market[i]`: the installed base through year `i`. -/
def tumF (inp : ProjInputs) (i : Nat) : Rat := (inp.units_sold.take (i + 1)).sum

/-- `hardware_revenue[i]`. -/
def hwRevF (inp : ProjInputs) (i : Nat) : Rat :=
  inp.units_sold.getD i 0 * inp.hardware_price

/-- `recurring_revenue[i]`. -/
def recRevF (inp : ProjInputs) (i : Nat) : Rat := tumF inp i * inp.subscription_fee

/-- `total_revenue[i]`. -/
def totRevF (inp : ProjInputs) (i : Nat) : Rat := hwRevF inp i + recRevF inp i

/-- `cumulative_revenue[i]`. -/
def cumRevF (inp : ProjInputs) (i : Nat) : Rat :=
  ((List.range (i + 1)).map (totRevF inp)).sum

/-- `hardware_costs[i]`. -/
def hwCostF (inp : ProjInputs) (i : Nat) : Rat :=
  inp.units_sold.getD i 0 * inp.hardware_cost

/-- `recurring_costs[i]`. -/
def recCostF (inp : ProjInputs) (i : Nat) : Rat := tumF inp i * inp.subscription_cost

/-- `total_costs[i]`. -/
def totCostF (inp : ProjInputs) (i : Nat) : Rat := hwCostF inp i + recCostF inp i

/-- `profit[i]`. -/
def profitF (inp : ProjInputs) (i : Nat) : Rat := totRevF inp i - totCostF inp i

/-- `profit_margin[i]`. -/
def pmF (inp : ProjInputs) (i : Nat) : Rat :=
  if 0 < totRevF inp i then profitF inp i / totRevF inp i * 100 else 0

/-- `roi[i]`. -/
def roiF (inp : ProjInputs) (i : Nat) : Rat :=
  (cumRevF inp i - inp.initial_investment) / inp.initial_investment * 100

/-- The DataFrame row for year index `i`. -/
def rowF (inp : ProjInputs) (i : Nat) : ProjectionRow :=
  { year := inp.years.getD i 0, units_sold := inp.units_sold.getD i 0,
    hardware_revenue := hwRevF inp i, recurring_revenue := recRevF inp i,
    total_revenue := totRevF inp i, total_costs := totCostF inp i,
    profit := profitF inp i, profit_margin := pmF inp i,
    cumulative_revenue := cumRevF inp i, roi := roiF inp i }

/-! ### Evaluation lemmas -/

/-- `bind` on a successful `Except` computation just applies the continuation. -/
theorem ok_bind {α β : Type} (a : α) (f : α → Except PyErr β) :
    (Except.ok a >>= f : Except PyErr β) = f a := rfl

/-- In-range Python indexing succeeds. -/
theorem pyGet_ok {α : Type} {l : List α} {i : Nat} (h : i < l.length) :
    pyGet l i = Except.ok l[i] := by
  simp [pyGet, List.getElem?_eq_getElem h]

/-- `getD` at an in-range index is the element there. -/
theorem getD_lt_eq {α : Type} {l : List α} {i : Nat} (d : α) (h : i < l.length) :
    l.getD i d = l[i] := by
  rw [List.getD_eq_getElem?_getD, List.getElem?_eq_getElem h]; rfl

/-- In-range Python indexing succeeds, phrased with `getD`. -/
theorem pyGet_getD {α : Type} {l : List α} {i : Nat} (d : α) (h : i < l.length) :
    pyGet l i = Except.ok (l.getD i d) := by
  rw [pyGet_ok h, getD_lt_eq d h]

/-- In-range Python indexing into a list built by mapping over `range`. -/
theorem pyGet_map_range {β : Type} {n i : Nat} (g : Nat → β) (h : i < n) :
    pyGet ((List.range n).map g) i = Except.ok (g i) := by
  have hl : i < ((List.range n).map g).length := by simpa using h
  rw [pyGet_ok hl]
  congr 1
  simp

/-- Indexing `total_units_in_market` in range gives the installed base. -/
theorem tum_get (inp : ProjInputs) {i : Nat} (h : i < inp.units_sold.length) :
    pyGet (total_units_in_market inp) i = Except.ok (tumF inp i) := by
  unfold total_units_in_market
  exact pyGet_map_range _ h

/-- Indexing `hardware_revenue` in range. -/
theorem hwRev_get (inp : ProjInputs) {i : Nat} (h : i < inp.units_sold.length) :
    pyGet (hardware_revenue inp) i = Except.ok (hwRevF inp i) := by
  unfold hardware_revenue
  have hl : i < (inp.units_sold.map (fun units => units * inp.hardware_price)).length := by
    simpa using h
  rw [pyGet_ok hl]
  congr 1
  rw [List.getElem_map]
  unfold hwRevF
  rw [getD_lt_eq 0 h]

/-- Indexing `hardware_costs` in range. -/
theorem hwCost_get (inp : ProjInputs) {i : Nat} (h : i < inp.units_sold.length) :
    pyGet (hardware_costs inp) i = Except.ok (hwCostF inp i) := by
  unfold hardware_costs
  have hl : i < (inp.units_sold.map (fun units => units * inp.hardware_cost)).length := by
    simpa using h
  rw [pyGet_ok hl]
  congr 1
  rw [List.getElem_map]
  unfold hwCostF
  rw [getD_lt_eq 0 h]

/-- With matching lengths, `recurring_revenue` succeeds with the closed form. -/
theorem recurring_revenue_ok (inp : ProjInputs)
    (hlen : inp.units_sold.length = inp.years.length) :
    recurring_revenue inp = Except.ok ((List.range inp.years.length).map (recRevF inp)) := by
  unfold recurring_revenue
  apply mapM_range_ok
  intro i hi
  rw [tum_get inp (by rw [hlen]; exact hi)]
  rfl

/-- With matching lengths, `total_revenue` succeeds with the closed form. -/
theorem total_revenue_ok (inp : ProjInputs)
    (hlen : inp.units_sold.length = inp.years.length) :
    total_revenue inp = Except.ok ((List.range inp.years.length).map (totRevF inp)) := by
  unfold total_revenue
  rw [recurring_revenue_ok inp hlen, ok_bind]
  apply mapM_range_ok
  intro i hi
  rw [hwRev_get inp (by rw [hlen]; exact hi), ok_bind, pyGet_map_range (recRevF inp) hi]
  rfl

/-- With matching lengths, `cumulative_revenue` succeeds with the closed form. -/
theorem cumulative_revenue_ok (inp : ProjInputs)
    (hlen : inp.units_sold.length = inp.years.length) :
    cumulative_revenue inp = Except.ok ((List.range inp.years.length).map (cumRevF inp)) := by
  unfold cumulative_revenue
  rw [total_revenue_ok inp hlen, ok_bind]
  show Except.ok _ = _
  congr 1
  rw [List.length_map, List.length_range]
  apply List.map_congr_left
  intro i hi
  have hin : i < inp.years.length := List.mem_range.mp hi
  rw [← List.map_take, List.take_range, Nat.min_eq_left (Nat.succ_le_of_lt hin)]
  rfl

/-- With matching lengths, `recurring_costs` succeeds with the closed form. -/
theorem recurring_costs_ok (inp : ProjInputs)
    (hlen : inp.units_sold.length = inp.years.length) :
    recurring_costs inp = Except.ok ((List.range inp.years.length).map (recCostF inp)) := by
  unfold recurring_costs
  apply mapM_range_ok
  intro i hi
  rw [tum_get inp (by rw [hlen]; exact hi)]
  rfl

/-- With matching lengths, `total_costs` succeeds with the closed form. -/
theorem total_costs_ok (inp : ProjInputs)
    (hlen : inp.units_sold.length = inp.years.length) :
    total_costs inp = Except.ok ((List.range inp.years.length).map (totCostF inp)) := by
  unfold total_costs
  rw [recurring_costs_ok inp hlen, ok_bind]
  apply mapM_range_ok
  intro i hi
  rw [hwCost_get inp (by rw [hlen]; exact hi), ok_bind, pyGet_map_range (recCostF inp) hi]
  rfl

/-- With matching lengths, `profit` succeeds with the closed form. -/
theorem profit_ok (inp : ProjInputs)
    (hlen : inp.units_sold.length = inp.years.length) :
    profit inp = Except.ok ((List.range inp.years.length).map (profitF inp)) := by
  unfold profit
  rw [total_revenue_ok inp hlen, ok_bind, total_costs_ok inp hlen, ok_bind]
  apply mapM_range_ok
  intro i hi
  rw [pyGet_map_range (totRevF inp) hi, ok_bind, pyGet_map_range (totCostF inp) hi]
  rfl

/-- With matching lengths, `profit_margin` succeeds with the closed form. -/
theorem profit_margin_ok (inp : ProjInputs)
    (hlen : inp.units_sold.length = inp.years.length) :
    profit_margin inp = Except.ok ((List.range inp.years.length).map (pmF inp)) := by
  unfold profit_margin
  rw [total_revenue_ok inp hlen, ok_bind, profit_ok inp hlen, ok_bind]
  apply mapM_range_ok
  intro i hi
  rw [pyGet_map_range (totRevF inp) hi, ok_bind]
  unfold pmF
  by_cases h0 : 0 < totRevF inp i
  · rw [if_pos h0, if_pos h0, pyGet_map_range (profitF inp) hi]
    rfl
  · rw [if_neg h0, if_neg h0]
    rfl

/-- When `initial_investment ≠ 0` (or the input is empty), `roi` succeeds
with the closed form. -/
theorem roi_ok (inp : ProjInputs)
    (hlen : inp.units_sold.length = inp.years.length)
    (hinv : inp.initial_investment ≠ 0 ∨ inp.years.length = 0) :
    roi inp = Except.ok ((List.range inp.years.length).map (roiF inp)) := by
  unfold roi
  rw [cumulative_revenue_ok inp hlen, ok_bind]
  apply mapM_range_ok
  intro i hi
  rcases hinv with hinv | hinv
  · rw [pyGet_map_range (cumRevF inp) hi, ok_bind, if_neg hinv]
    rfl
  · rw [hinv] at hi
    cases hi

/-- When `initial_investment = 0` and there is at least one year, the ROI
comprehension raises `ZeroDivisionError`, exactly as the Python source does. -/
theorem roi_zero_investment (inp : ProjInputs)
    (hlen : inp.units_sold.length = inp.years.length)
    (hN : 0 < inp.years.length)
    (hz : inp.initial_investment = 0) :
    roi inp = Except.error PyErr.zeroDivisionError := by
  unfold roi
  rw [cumulative_revenue_ok inp hlen, ok_bind]
  obtain ⟨m, hm⟩ : ∃ m, inp.years.length = m + 1 :=
    ⟨inp.years.length - 1, (Nat.succ_pred_eq_of_pos hN).symm⟩
  rw [hm, List.range_succ_eq_map]
  apply mapM_cons_error
  have h0 : pyGet (List.map (cumRevF inp) (0 :: List.map Nat.succ (List.range m))) 0
      = Except.ok (cumRevF inp 0) := by simp [pyGet]
  rw [h0, ok_bind, if_pos hz]

/-- Master evaluation theorem: with matching lengths and a non-zero
`initial_investment` (or an empty input), `calculate_projections` returns
exactly one row per year, row `i` being `rowF inp i`. -/
theorem calculate_projections_ok (inp : ProjInputs)
    (hlen : inp.units_sold.length = inp.years.length)
    (hinv : inp.initial_investment ≠ 0 ∨ inp.years.length = 0) :
    calculate_projections inp =
      Except.ok ((List.range inp.years.length).map (rowF inp)) := by
  unfold calculate_projections
  rw [recurring_revenue_ok inp hlen, ok_bind, total_revenue_ok inp hlen, ok_bind,
    cumulative_revenue_ok inp hlen, ok_bind, recurring_costs_ok inp hlen, ok_bind,
    total_costs_ok inp hlen, ok_bind, profit_ok inp hlen, ok_bind,
    profit_margin_ok inp hlen, ok_bind, roi_ok inp hlen hinv, ok_bind,
    if_pos hlen]
  apply mapM_range_ok
  intro i hi
  have hu : i < inp.units_sold.length := by rw [hlen]; exact hi
  rw [pyGet_getD (0 : Int) hi, ok_bind, pyGet_getD (0 : Rat) hu, ok_bind,
    hwRev_get inp hu, ok_bind, pyGet_map_range (recRevF inp) hi, ok_bind,
    pyGet_map_range (totRevF inp) hi, ok_bind, pyGet_map_range (totCostF inp) hi, ok_bind,
    pyGet_map_range (profitF inp) hi, ok_bind, pyGet_map_range (pmF inp) hi, ok_bind,
    pyGet_map_range (cumRevF inp) hi, ok_bind, pyGet_map_range (roiF inp) hi, ok_bind]
  rfl

/-- If `units_sold` is strictly shorter than `years`, the comprehension for
`recurring_revenue` indexes `total_units_in_market` out of range, so it
raises `IndexError` (it cannot succeed). -/
theorem recurring_revenue_short (inp : ProjInputs)
    (hlt : inp.units_sold.length < inp.years.length) :
    ∀ ys, recurring_revenue inp ≠ Except.ok ys := by
  intro ys hok
  unfold recurring_revenue at hok
  rcases exists_ok_of_mapM_ok hok inp.units_sold.length (List.mem_range.mpr hlt) with ⟨y, hy⟩
  have htum : pyGet (total_units_in_market inp) inp.units_sold.length
      = Except.error PyErr.indexError := by
    unfold total_units_in_market pyGet
    rw [List.getElem?_eq_none (by simp)]
  rw [htum] at hy
  cases hy

/-- Success of `calculate_projections` forces the column lengths to agree
(else `pd.DataFrame` raises) and the ROI list to have been computed. -/
theorem calc_ok_conditions {inp : ProjInputs} {rows : List ProjectionRow}
    (h : calculate_projections inp = Except.ok rows) :
    inp.units_sold.length = inp.years.length ∧ ∃ r, roi inp = Except.ok r := by
  unfold calculate_projections at h
  cases h1 : recurring_revenue inp with
  | error e => rw [h1] at h; cases h
  | ok v1 =>
  rw [h1, ok_bind] at h
  cases h2 : total_revenue inp with
  | error e => rw [h2] at h; cases h
  | ok v2 =>
  rw [h2, ok_bind] at h
  cases h3 : cumulative_revenue inp with
  | error e => rw [h3] at h; cases h
  | ok v3 =>
  rw [h3, ok_bind] at h
  cases h4 : recurring_costs inp with
  | error e => rw [h4] at h; cases h
  | ok v4 =>
  rw [h4, ok_bind] at h
  cases h5 : total_costs inp with
  | error e => rw [h5] at h; cases h
  | ok v5 =>
  rw [h5, ok_bind] at h
  cases h6 : profit inp with
  | error e => rw [h6] at h; cases h
  | ok v6 =>
  rw [h6, ok_bind] at h
  cases h7 : profit_margin inp with
  | error e => rw [h7] at h; cases h
  | ok v7 =>
  rw [h7, ok_bind] at h
  cases h8 : roi inp with
  | error e => rw [h8] at h; cases h
  | ok v8 =>
  rw [h8, ok_bind] at h
  by_cases hlen : inp.units_sold.length = inp.years.length
  · exact ⟨hlen, v8, rfl⟩
  · rw [if_neg hlen] at h
    cases h

/-- Full inversion: a successful run has matching lengths, a non-zero
investment (unless the input is empty), and produces exactly the closed-form
rows. -/
theorem calc_ok_inversion {inp : ProjInputs} {rows : List ProjectionRow}
    (h : calculate_projections inp = Except.ok rows) :
    inp.units_sold.length = inp.years.length ∧
      (inp.initial_investment ≠ 0 ∨ inp.years.length = 0) ∧
      rows = (List.range inp.years.length).map (rowF inp) := by
  obtain ⟨hlen, r, hr⟩ := calc_ok_conditions h
  have hinv : inp.initial_investment ≠ 0 ∨ inp.years.length = 0 := by
    by_cases hz : inp.initial_investment = 0
    · right
      by_contra hn
      rw [roi_zero_investment inp hlen (Nat.pos_of_ne_zero hn) hz] at hr
      cases hr
    · exact Or.inl hz
  refine ⟨hlen, hinv, ?_⟩
  rw [calculate_projections_ok inp hlen hinv] at h
  exact (Except.ok.injEq _ _ ▸ h).symm

/-- With mismatched lengths, `calculate_projections` raises: `IndexError`
mid-computation when `units_sold` is shorter than `years`, or pandas'
`ValueError` at DataFrame construction when it is longer. -/
theorem calculate_projections_mismatch (inp : ProjInputs)
    (h : inp.units_sold.length ≠ inp.years.length) :
    ∃ e, calculate_projections inp = Except.error e := by
  cases hres : calculate_projections inp with
  | error e => exact ⟨e, rfl⟩
  | ok rows => exact absurd (calc_ok_conditions hres).1 h

/-- `getD` on a list built by mapping over `range`. -/
theorem getD_map_range {β : Type} {n i : Nat} (g : Nat → β) (d : β) (h : i < n) :
    ((List.range n).map g).getD i d = g i := by
  rw [List.getD_eq_getElem?_getD, List.getElem?_map, List.getElem?_range h]
  rfl

/-- If two lists agree on their first `j + 1` elements they agree at index `j`. -/
theorem getD_congr_of_take {α : Type} {l l2 : List α} {j : Nat} (d : α)
    (h : l.take (j + 1) = l2.take (j + 1)) : l.getD j d = l2.getD j d := by
  rw [List.getD_eq_getElem?_getD, List.getD_eq_getElem?_getD]
  have h1 : l[j]? = (l.take (j + 1))[j]? := by
    rw [List.getElem?_take, if_pos (Nat.lt_succ_self j)]
  have h2 : l2[j]? = (l2.take (j + 1))[j]? := by
    rw [List.getElem?_take, if_pos (Nat.lt_succ_self j)]
  rw [h1, h2, h]

/-- `getD` form of indexing `hardware_revenue`. -/
theorem hwRev_getD (inp : ProjInputs) {i : Nat} (h : i < inp.units_sold.length) :
    (hardware_revenue inp).getD i 0 = hwRevF inp i := by
  unfold hardware_revenue hwRevF
  have hl : i < (inp.units_sold.map fun units => units * inp.hardware_price).length := by
    simpa using h
  rw [getD_lt_eq 0 hl, List.getElem_map, getD_lt_eq 0 h]

/-- `getD` form of indexing `hardware_costs`. -/
theorem hwCost_getD (inp : ProjInputs) {i : Nat} (h : i < inp.units_sold.length) :
    (hardware_costs inp).getD i 0 = hwCostF inp i := by
  unfold hardware_costs hwCostF
  have hl : i < (inp.units_sold.map fun units => units * inp.hardware_cost).length := by
    simpa using h
  rw [getD_lt_eq 0 hl, List.getElem_map, getD_lt_eq 0 h]

/-- Row `i` of the output is a function of the scalar parameters, `years[i]`
and the prefix `units_sold[0..i]` alone: two inputs agreeing there produce
the same row `i`. -/
theorem rowF_prefix (inp inp2 : ProjInputs) (i : Nat)
    (hp : inp.hardware_price = inp2.hardware_price)
    (hc : inp.hardware_cost = inp2.hardware_cost)
    (hf : inp.subscription_fee = inp2.subscription_fee)
    (hs : inp.subscription_cost = inp2.subscription_cost)
    (hv : inp.initial_investment = inp2.initial_investment)
    (hy : inp.years.take (i + 1) = inp2.years.take (i + 1))
    (hu : inp.units_sold.take (i + 1) = inp2.units_sold.take (i + 1)) :
    rowF inp i = rowF inp2 i := by
  have htake : ∀ j, j ≤ i →
      inp.units_sold.take (j + 1) = inp2.units_sold.take (j + 1) := by
    intro j hj
    have hjj := congrArg (List.take (j + 1)) hu
    rwa [List.take_take, List.take_take,
      inf_eq_left.mpr (by omega : j + 1 ≤ i + 1)] at hjj
  have htrj : ∀ j, j ≤ i → totRevF inp j = totRevF inp2 j := by
    intro j hj
    have hu' := htake j hj
    unfold totRevF hwRevF recRevF tumF
    rw [getD_congr_of_take 0 hu', hu', hp, hf]
  have hyear : inp.years.getD i 0 = inp2.years.getD i 0 := getD_congr_of_take 0 hy
  have hunits : inp.units_sold.getD i 0 = inp2.units_sold.getD i 0 := getD_congr_of_take 0 hu
  have hhw : hwRevF inp i = hwRevF inp2 i := by unfold hwRevF; rw [hunits, hp]
  have hrr : recRevF inp i = recRevF inp2 i := by
    unfold recRevF tumF; rw [htake i le_rfl, hf]
  have htc : totCostF inp i = totCostF inp2 i := by
    unfold totCostF hwCostF recCostF tumF
    rw [getD_congr_of_take 0 hu, hu, hc, hs]
  have hprof : profitF inp i = profitF inp2 i := by
    unfold profitF; rw [htrj i le_rfl, htc]
  have hpm : pmF inp i = pmF inp2 i := by
    unfold pmF; rw [htrj i le_rfl, hprof]
  have hcum : cumRevF inp i = cumRevF inp2 i := by
    unfold cumRevF
    congr 1
    apply List.map_congr_left
    intro j hjmem
    exact htrj j (Nat.lt_succ_iff.mp (List.mem_range.mp hjmem))
  have hroi : roiF inp i = roiF inp2 i := by
    unfold roiF; rw [hcum, hv]
  unfold rowF
  rw [hyear, hunits, hhw, hrr, htrj i le_rfl, htc, hprof, hpm, hcum, hroi]

/-! ### Concrete inputs used by scenarios, witnesses and counterexamples -/

/-- A placeholder row, used only as the default argument of `List.getD`. -/
def dRow : ProjectionRow :=
  { year := 0, units_sold := 0, hardware_revenue := 0, recurring_revenue := 0,
    total_revenue := 0, total_costs := 0, profit := 0, profit_margin := 0,
    cumulative_revenue := 0, roi := 0 }

/-- Scenario 1/2 of the spec: two years, 100 units each, price 15000,
cost 11000, fee 2000, subscription cost 500, investment 6000000. -/
def scenInp : ProjInputs :=
  { years := [1, 2], units_sold := [100, 100], hardware_price := 15000,
    hardware_cost := 11000, subscription_fee := 2000, subscription_cost := 500,
    initial_investment := 6000000 }

/-- The rows the scenario input produces (margins and ROI as exact
rationals: `550/17 ≈ 32.35`, `-215/3 ≈ -71.67`, `700/19 ≈ 36.84`). -/
def scenRows : List ProjectionRow :=
  [{ year := 1, units_sold := 100, hardware_revenue := 1500000,
     recurring_revenue := 200000, total_revenue := 1700000, total_costs := 1150000,
     profit := 550000, profit_margin := 550 / 17, cumulative_revenue := 1700000,
     roi := -215 / 3 },
   { year := 2, units_sold := 100, hardware_revenue := 1500000,
     recurring_revenue := 400000, total_revenue := 1900000, total_costs := 1200000,
     profit := 700000, profit_margin := 700 / 19, cumulative_revenue := 3600000,
     roi := -40 }]

/-- The scenario input with `initial_investment = 0` (Scenario 4). -/
def zeroInvInp : ProjInputs := { scenInp with initial_investment := 0 }

/-- An invalid input in the spec's sense: a negative economics value
(`hardware_price = -1`) with matching lengths. -/
def negEconInp : ProjInputs :=
  { years := [1], units_sold := [1], hardware_price := -1, hardware_cost := 0,
    subscription_fee := 0, subscription_cost := 0, initial_investment := 1 }

/-- An invalid input in the spec's sense: `years` longer than `units_sold`. -/
def mismatchInp : ProjInputs :=
  { years := [1, 2], units_sold := [100], hardware_price := 0, hardware_cost := 0,
    subscription_fee := 0, subscription_cost := 0, initial_investment := 1 }

/-! ### The claims -/

/-- C1: for every valid input (equal lengths, N ≥ 1, positive investment)
and every year index `i`, `recurring_revenue[i]` equals the sum of
`units_sold[0..i]` times `subscription_fee`, and `recurring_costs[i]`
equals that same installed base times `subscription_cost` — both accrue on
the entire installed base, not just the units sold in year `i`. -/
theorem claim_C1 (inp : ProjInputs)
    (hlen : inp.units_sold.length = inp.years.length)
    (hN : 1 ≤ inp.years.length)
    (hinv : 0 < inp.initial_investment) :
    ∃ rr rc, recurring_revenue inp = Except.ok rr ∧
      recurring_costs inp = Except.ok rc ∧
      rr.length = inp.years.length ∧ rc.length = inp.years.length ∧
      ∀ i, i < inp.years.length →
        rr.getD i 0 = (inp.units_sold.take (i + 1)).sum * inp.subscription_fee ∧
        rc.getD i 0 = (inp.units_sold.take (i + 1)).sum * inp.subscription_cost := by
  refine ⟨_, _, recurring_revenue_ok inp hlen, recurring_costs_ok inp hlen,
    by simp, by simp, ?_⟩
  intro i hi
  rw [getD_map_range (recRevF inp) 0 hi, getD_map_range (recCostF inp) 0 hi]
  exact ⟨rfl, rfl⟩

/-- Witness for C1 at the spec's Scenario 1 input. -/
theorem claim_C1_witness :
    scenInp.units_sold.length = scenInp.years.length ∧
    1 ≤ scenInp.years.length ∧ 0 < scenInp.initial_investment ∧
    ∃ rr rc, recurring_revenue scenInp = Except.ok rr ∧
      recurring_costs scenInp = Except.ok rc ∧
      rr.length = scenInp.years.length ∧ rc.length = scenInp.years.length ∧
      ∀ i, i < scenInp.years.length →
        rr.getD i 0 = (scenInp.units_sold.take (i + 1)).sum * scenInp.subscription_fee ∧
        rc.getD i 0 = (scenInp.units_sold.take (i + 1)).sum * scenInp.subscription_cost :=
  ⟨rfl, by decide, by decide, claim_C1 scenInp rfl (by decide) (by decide)⟩

/-- C2: for every valid input and year index `i`, `profit_margin[i]` is
exactly 0 when `total_revenue[i] = 0` (the division is guarded: the whole
computation succeeds, so no exception is raised — and over ℚ no NaN
exists), and otherwise equals `profit[i] / total_revenue[i] * 100`. -/
theorem claim_C2 (inp : ProjInputs)
    (hlen : inp.units_sold.length = inp.years.length)
    (hunits : ∀ u ∈ inp.units_sold, 0 ≤ u)
    (hprice : 0 ≤ inp.hardware_price)
    (hfee : 0 ≤ inp.subscription_fee) :
    ∃ tr p pm, total_revenue inp = Except.ok tr ∧ profit inp = Except.ok p ∧
      profit_margin inp = Except.ok pm ∧
      tr.length = inp.years.length ∧ pm.length = inp.years.length ∧
      ∀ i, i < inp.years.length →
        (tr.getD i 0 = 0 → pm.getD i 0 = 0) ∧
        (tr.getD i 0 ≠ 0 → pm.getD i 0 = p.getD i 0 / tr.getD i 0 * 100) := by
  refine ⟨_, _, _, total_revenue_ok inp hlen, profit_ok inp hlen,
    profit_margin_ok inp hlen, by simp, by simp, ?_⟩
  intro i hi
  rw [getD_map_range (totRevF inp) 0 hi, getD_map_range (pmF inp) 0 hi,
    getD_map_range (profitF inp) 0 hi]
  have htr : 0 ≤ totRevF inp i := by
    have h1 : 0 ≤ inp.units_sold.getD i 0 := by
      rcases Nat.lt_or_ge i inp.units_sold.length with hlt | hge
      · rw [getD_lt_eq 0 hlt]
        exact hunits _ (List.getElem_mem hlt)
      · rw [List.getD_eq_getElem?_getD, List.getElem?_eq_none hge]
        exact le_refl 0
    have h2 : 0 ≤ (inp.units_sold.take (i + 1)).sum :=
      List.sum_nonneg (fun x hx => hunits x (List.mem_of_mem_take hx))
    exact add_nonneg (mul_nonneg h1 hprice) (mul_nonneg h2 hfee)
  constructor
  · intro h0
    unfold pmF
    rw [if_neg (by rw [h0]; exact lt_irrefl 0)]
  · intro hne
    have hpos : 0 < totRevF inp i := lt_of_le_of_ne htr (Ne.symm hne)
    unfold pmF
    rw [if_pos hpos]

/-- Witness for C2: Scenario 3 of the spec, `units_sold = [0]`, so
`total_revenue[0] = 0` and the margin must be exactly 0. -/
theorem claim_C2_witness :
    (let inp : ProjInputs :=
      { years := [1], units_sold := [0], hardware_price := 15000,
        hardware_cost := 11000, subscription_fee := 2000, subscription_cost := 500,
        initial_investment := 6000000 };
    ∃ tr p pm, total_revenue inp = Except.ok tr ∧ profit inp = Except.ok p ∧
      profit_margin inp = Except.ok pm ∧
      tr.length = inp.years.length ∧ pm.length = inp.years.length ∧
      ∀ i, i < inp.years.length →
        (tr.getD i 0 = 0 → pm.getD i 0 = 0) ∧
        (tr.getD i 0 ≠ 0 → pm.getD i 0 = p.getD i 0 / tr.getD i 0 * 100)) :=
  claim_C2 _ rfl (by intro u hu; simp at hu; simp [hu]) (by norm_num) (by norm_num)

/-- C3: for every valid input, when `initial_investment > 0` each
`roi[i]` equals `(cumulative_revenue[i] - initial_investment) /
initial_investment * 100`; when `initial_investment = 0` the computation
raises a defined error (`ZeroDivisionError`), not a silent infinity or a
partial result. -/
theorem claim_C3 (inp : ProjInputs)
    (hlen : inp.units_sold.length = inp.years.length)
    (hN : 1 ≤ inp.years.length) :
    (0 < inp.initial_investment →
      ∃ cr r, cumulative_revenue inp = Except.ok cr ∧ roi inp = Except.ok r ∧
        cr.length = inp.years.length ∧ r.length = inp.years.length ∧
        ∀ i, i < inp.years.length →
          r.getD i 0 =
            (cr.getD i 0 - inp.initial_investment) / inp.initial_investment * 100) ∧
    (inp.initial_investment = 0 →
      roi inp = Except.error PyErr.zeroDivisionError ∧
      calculate_projections inp = Except.error PyErr.zeroDivisionError) := by
  constructor
  · intro hpos
    refine ⟨_, _, cumulative_revenue_ok inp hlen,
      roi_ok inp hlen (Or.inl (ne_of_gt hpos)), by simp, by simp, ?_⟩
    intro i hi
    rw [getD_map_range (roiF inp) 0 hi, getD_map_range (cumRevF inp) 0 hi]
    rfl
  · intro hz
    have hroi := roi_zero_investment inp hlen hN hz
    refine ⟨hroi, ?_⟩
    unfold calculate_projections
    rw [recurring_revenue_ok inp hlen, ok_bind, total_revenue_ok inp hlen, ok_bind,
      cumulative_revenue_ok inp hlen, ok_bind, recurring_costs_ok inp hlen, ok_bind,
      total_costs_ok inp hlen, ok_bind, profit_ok inp hlen, ok_bind,
      profit_margin_ok inp hlen, ok_bind, hroi]
    rfl

/-- Witness for C3: the positive branch at Scenario 1 and the zero branch
at Scenario 4 (`initial_investment = 0`). -/
theorem claim_C3_witness :
    (∃ cr r, cumulative_revenue scenInp = Except.ok cr ∧ roi scenInp = Except.ok r ∧
      cr.length = scenInp.years.length ∧ r.length = scenInp.years.length ∧
      ∀ i, i < scenInp.years.length →
        r.getD i 0 =
          (cr.getD i 0 - scenInp.initial_investment) / scenInp.initial_investment * 100) ∧
    roi zeroInvInp = Except.error PyErr.zeroDivisionError ∧
    calculate_projections zeroInvInp = Except.error PyErr.zeroDivisionError :=
  ⟨(claim_C3 scenInp rfl (by decide)).1 (by decide),
   (claim_C3 zeroInvInp rfl (by decide)).2 rfl⟩

/-- C4 counterexample: the call with a negative economics value
(`hardware_price = -1`, matching lengths) is NOT rejected: the function
runs to completion and returns a fully computed row, contradicting the
claim that invalid input is rejected before any computation begins. -/
theorem claim_C4_counterexample :
    calculate_projections negEconInp =
      Except.ok
        [{ year := 1, units_sold := 1, hardware_revenue := -1,
           recurring_revenue := 0, total_revenue := -1, total_costs := 0,
           profit := -1, profit_margin := 0, cumulative_revenue := -1,
           roi := -200 }] := by
  rw [calculate_projections_ok negEconInp rfl (Or.inl (by norm_num [negEconInp]))]
  have h1 : List.range negEconInp.years.length = [0] := rfl
  rw [h1]
  norm_num [rowF, hwRevF, recRevF, tumF, totRevF, hwCostF, recCostF, totCostF,
    profitF, pmF, cumRevF, roiF, negEconInp, List.range_succ]

/-- C4 as amended: `calculate_projections` performs no up-front input
validation.  The only inputs it rejects are mismatched lengths — and then
only by an error raised during computation (`IndexError`) or at DataFrame
construction (`ValueError`), not before computation begins.  Calls with
matching lengths and non-zero investment — including negative economics
values — return normally computed rows, and the empty input returns an
empty table instead of being rejected. -/
theorem claim_C4_amended (inp : ProjInputs) :
    (inp.units_sold.length ≠ inp.years.length →
      ∃ e, calculate_projections inp = Except.error e) ∧
    (inp.units_sold.length = inp.years.length → inp.initial_investment ≠ 0 →
      ∃ rows, calculate_projections inp = Except.ok rows) ∧
    (inp.years = [] → inp.units_sold = [] →
      calculate_projections inp = Except.ok []) := by
  refine ⟨calculate_projections_mismatch inp, ?_, ?_⟩
  · intro hlen hinv
    exact ⟨_, calculate_projections_ok inp hlen (Or.inl hinv)⟩
  · intro hy hu
    rw [calculate_projections_ok inp (by rw [hy, hu]; rfl) (Or.inr (by rw [hy]; rfl))]
    rw [hy]
    rfl

/-- Witness for the amended C4: a mismatched-length call errors, while a
negative-economics call succeeds. -/
theorem claim_C4_amended_witness :
    (∃ e, calculate_projections mismatchInp = Except.error e) ∧
    (∃ rows, calculate_projections negEconInp = Except.ok rows) :=
  ⟨(claim_C4_amended mismatchInp).1 (by decide),
   (claim_C4_amended negEconInp).2.1 rfl (by norm_num [negEconInp])⟩

/-- C5: every successful run returns exactly one row per input year, in
input order (row `i` carries `years[i]` and `units_sold[i]`), and row `i`
is a deterministic pure function of the scalar parameters and the input
prefixes `years[0..i]`, `units_sold[0..i]` only: two calls agreeing there
produce identical rows at index `i`. -/
theorem claim_C5 (inp : ProjInputs) (rows : List ProjectionRow)
    (hok : calculate_projections inp = Except.ok rows) :
    rows.length = inp.years.length ∧
    (∀ i, i < inp.years.length →
      (rows.getD i dRow).year = inp.years.getD i 0 ∧
      (rows.getD i dRow).units_sold = inp.units_sold.getD i 0) ∧
    (∀ inp2 rows2, calculate_projections inp2 = Except.ok rows2 →
      inp.hardware_price = inp2.hardware_price →
      inp.hardware_cost = inp2.hardware_cost →
      inp.subscription_fee = inp2.subscription_fee →
      inp.subscription_cost = inp2.subscription_cost →
      inp.initial_investment = inp2.initial_investment →
      ∀ i, i < rows.length → i < rows2.length →
        inp.years.take (i + 1) = inp2.years.take (i + 1) →
        inp.units_sold.take (i + 1) = inp2.units_sold.take (i + 1) →
        rows.getD i dRow = rows2.getD i dRow) := by
  obtain ⟨hlen, hinv, hrows⟩ := calc_ok_inversion hok
  subst hrows
  refine ⟨by simp, ?_, ?_⟩
  · intro i hi
    rw [getD_map_range (rowF inp) dRow hi]
    exact ⟨rfl, rfl⟩
  · intro inp2 rows2 hok2 hp hc hf hs hv i hi1 hi2 hy hu
    obtain ⟨hlen2, hinv2, hrows2⟩ := calc_ok_inversion hok2
    subst hrows2
    have hin : i < inp.years.length := by simpa using hi1
    have hin2 : i < inp2.years.length := by simpa using hi2
    rw [getD_map_range (rowF inp) dRow hin, getD_map_range (rowF inp2) dRow hin2]
    exact rowF_prefix inp inp2 i hp hc hf hs hv hy hu

/-- Witness for C5 at the Scenario 1 input (hypothesis discharged by the
concrete computation of `calculate_projections scenInp`). -/
theorem claim_C5_witness :
    ∃ rows, calculate_projections scenInp = Except.ok rows ∧
      rows.length = scenInp.years.length :=
  ⟨_, calculate_projections_ok scenInp rfl (Or.inl (by norm_num [scenInp])),
    (claim_C5 scenInp _
      (calculate_projections_ok scenInp rfl (Or.inl (by norm_num [scenInp])))).1⟩

/-- C6: for every valid input, `cumulative_revenue[i]` is the prefix sum
of `total_revenue[0..i]`; it coincides with the running-accumulator form
`cumulative_revenue[i] = cumulative_revenue[i-1] + total_revenue[i]`, and
at the last index it equals the sum of `total_revenue` over all years. -/
theorem claim_C6 (inp : ProjInputs)
    (hlen : inp.units_sold.length = inp.years.length) :
    ∃ tr cr, total_revenue inp = Except.ok tr ∧
      cumulative_revenue inp = Except.ok cr ∧
      tr.length = inp.years.length ∧ cr.length = inp.years.length ∧
      (∀ i, i < inp.years.length → cr.getD i 0 = (tr.take (i + 1)).sum) ∧
      (∀ i, 1 ≤ i → i < inp.years.length →
        cr.getD i 0 = cr.getD (i - 1) 0 + tr.getD i 0) ∧
      (1 ≤ inp.years.length → cr.getD (inp.years.length - 1) 0 = tr.sum) := by
  have hprefix : ∀ i, i < inp.years.length →
      (((List.range inp.years.length).map (totRevF inp)).take (i + 1)).sum
        = cumRevF inp i := by
    intro i hi
    rw [← List.map_take, List.take_range, Nat.min_eq_left (Nat.succ_le_of_lt hi)]
    rfl
  refine ⟨_, _, total_revenue_ok inp hlen, cumulative_revenue_ok inp hlen,
    by simp, by simp, ?_, ?_, ?_⟩
  · intro i hi
    rw [getD_map_range (cumRevF inp) 0 hi, hprefix i hi]
  · intro i h1 hi
    rw [getD_map_range (cumRevF inp) 0 hi, getD_map_range (totRevF inp) 0 hi,
      getD_map_range (cumRevF inp) 0 (by omega : i - 1 < inp.years.length)]
    have hsi : i - 1 + 1 = i := Nat.succ_pred_eq_of_pos h1
    unfold cumRevF
    rw [← hsi, List.range_succ, List.map_append, List.sum_append]
    simp [hsi]
  · intro hN
    have hi : inp.years.length - 1 < inp.years.length := by omega
    rw [getD_map_range (cumRevF inp) 0 hi, ← hprefix _ hi]
    have hfull : inp.years.length - 1 + 1 = inp.years.length :=
      Nat.succ_pred_eq_of_pos hN
    rw [hfull, List.take_of_length_le (by simp)]

/-- Witness for C6 at the Scenario 1 input. -/
theorem claim_C6_witness :
    ∃ tr cr, total_revenue scenInp = Except.ok tr ∧
      cumulative_revenue scenInp = Except.ok cr ∧
      tr.length = scenInp.years.length ∧ cr.length = scenInp.years.length ∧
      (∀ i, i < scenInp.years.length → cr.getD i 0 = (tr.take (i + 1)).sum) ∧
      (∀ i, 1 ≤ i → i < scenInp.years.length →
        cr.getD i 0 = cr.getD (i - 1) 0 + tr.getD i 0) ∧
      (1 ≤ scenInp.years.length → cr.getD (scenInp.years.length - 1) 0 = tr.sum) :=
  claim_C6 scenInp rfl

/-- C7: whenever all `units_sold` entries are non-negative, the installed
base `total_units_in_market` is monotonically non-decreasing. -/
theorem claim_C7 (inp : ProjInputs)
    (hunits : ∀ u ∈ inp.units_sold, 0 ≤ u) :
    ∀ i, 1 ≤ i → i < (total_units_in_market inp).length →
      (total_units_in_market inp).getD (i - 1) 0 ≤
        (total_units_in_market inp).getD i 0 := by
  intro i h1 hi
  have hiu : i < inp.units_sold.length := by
    have : (total_units_in_market inp).length = inp.units_sold.length := by
      unfold total_units_in_market; simp
    omega
  unfold total_units_in_market
  rw [getD_map_range _ 0 hiu, getD_map_range _ 0 (by omega : i - 1 < inp.units_sold.length)]
  have hsi : i - 1 + 1 = i := Nat.succ_pred_eq_of_pos h1
  rw [hsi, List.sum_take_succ inp.units_sold i hiu]
  have hnn := hunits _ (List.getElem_mem hiu)
  linarith

/-- Witness for C7 at the Scenario 1 input, year index 1: the installed
base grows from 100 to 200. -/
theorem claim_C7_witness :
    1 ≤ 1 ∧ 1 < (total_units_in_market scenInp).length ∧
      (total_units_in_market scenInp).getD (1 - 1) 0 ≤
        (total_units_in_market scenInp).getD 1 0 :=
  ⟨le_refl 1, by norm_num [total_units_in_market, scenInp],
    claim_C7 scenInp (by intro u hu; simp [scenInp] at hu; rw [hu]; norm_num)
      1 (le_refl 1) (by norm_num [total_units_in_market, scenInp])⟩

/-- C8: on the spec's Scenario 1/2 input the output matches the quoted
numbers.  Year 1: hardware revenue 1,500,000; recurring revenue 200,000;
total revenue 1,700,000; total costs 1,150,000; profit 550,000; cumulative
revenue 1,700,000; ROI = (1,700,000 − 6,000,000)/6,000,000 × 100, which is
−71.67 % when rounded to two decimals (`round (roi * 100) = −7167`).
Year 2: installed base 200; recurring revenue 400,000; hardware revenue
1,500,000; total revenue 1,900,000; cumulative revenue 3,600,000. -/
theorem claim_C8 :
    calculate_projections scenInp = Except.ok scenRows ∧
    scenRows.length = 2 ∧
    (scenRows.getD 0 dRow).hardware_revenue = 1500000 ∧
    (scenRows.getD 0 dRow).recurring_revenue = 200000 ∧
    (scenRows.getD 0 dRow).total_revenue = 1700000 ∧
    (scenRows.getD 0 dRow).total_costs = 1150000 ∧
    (scenRows.getD 0 dRow).profit = 550000 ∧
    (scenRows.getD 0 dRow).cumulative_revenue = 1700000 ∧
    (scenRows.getD 0 dRow).roi = (1700000 - 6000000) / 6000000 * 100 ∧
    round ((scenRows.getD 0 dRow).roi * 100) = (-7167 : Int) ∧
    (total_units_in_market scenInp).getD 1 0 = 200 ∧
    (scenRows.getD 1 dRow).recurring_revenue = 400000 ∧
    (scenRows.getD 1 dRow).hardware_revenue = 1500000 ∧
    (scenRows.getD 1 dRow).total_revenue = 1900000 ∧
    (scenRows.getD 1 dRow).cumulative_revenue = 3600000 := by
  refine ⟨?_, rfl, ?_⟩
  · rw [calculate_projections_ok scenInp rfl (Or.inl (by norm_num [scenInp]))]
    have h2 : List.range scenInp.years.length = [0, 1] := rfl
    rw [h2]
    unfold scenRows
    norm_num [rowF, hwRevF, recRevF, tumF, totRevF, hwCostF, recCostF, totCostF,
      profitF, pmF, cumRevF, roiF, scenInp, List.range_succ]
  · refine ⟨by norm_num [scenRows, dRow], by norm_num [scenRows, dRow],
      by norm_num [scenRows, dRow], by norm_num [scenRows, dRow],
      by norm_num [scenRows, dRow], by norm_num [scenRows, dRow],
      by norm_num [scenRows, dRow], ?_,
      by norm_num [total_units_in_market, scenInp, List.range_succ],
      by norm_num [scenRows, dRow], by norm_num [scenRows, dRow],
      by norm_num [scenRows, dRow], by norm_num [scenRows, dRow]⟩
    have hroi : (scenRows.getD 0 dRow).roi = -215 / 3 := by norm_num [scenRows, dRow]
    rw [hroi]
    norm_num [round_eq]

/-- C9: for every valid input and year index `i`, the additive
decompositions hold: total revenue is hardware plus recurring revenue,
total costs are hardware plus recurring costs, and profit is their
difference. -/
theorem claim_C9 (inp : ProjInputs)
    (hlen : inp.units_sold.length = inp.years.length) :
    ∃ rr tr rc tc p,
      recurring_revenue inp = Except.ok rr ∧ total_revenue inp = Except.ok tr ∧
      recurring_costs inp = Except.ok rc ∧ total_costs inp = Except.ok tc ∧
      profit inp = Except.ok p ∧
      tr.length = inp.years.length ∧ tc.length = inp.years.length ∧
      p.length = inp.years.length ∧
      ∀ i, i < inp.years.length →
        tr.getD i 0 = (hardware_revenue inp).getD i 0 + rr.getD i 0 ∧
        tc.getD i 0 = (hardware_costs inp).getD i 0 + rc.getD i 0 ∧
        p.getD i 0 = tr.getD i 0 - tc.getD i 0 := by
  refine ⟨_, _, _, _, _, recurring_revenue_ok inp hlen, total_revenue_ok inp hlen,
    recurring_costs_ok inp hlen, total_costs_ok inp hlen, profit_ok inp hlen,
    by simp, by simp, by simp, ?_⟩
  intro i hi
  have hu : i < inp.units_sold.length := by rw [hlen]; exact hi
  rw [getD_map_range (totRevF inp) 0 hi, getD_map_range (recRevF inp) 0 hi,
    getD_map_range (totCostF inp) 0 hi, getD_map_range (recCostF inp) 0 hi,
    getD_map_range (profitF inp) 0 hi, hwRev_getD inp hu, hwCost_getD inp hu]
  exact ⟨rfl, rfl, rfl⟩

/-- Witness for C9 at the Scenario 1 input. -/
theorem claim_C9_witness :
    ∃ rr tr rc tc p,
      recurring_revenue scenInp = Except.ok rr ∧ total_revenue scenInp = Except.ok tr ∧
      recurring_costs scenInp = Except.ok rc ∧ total_costs scenInp = Except.ok tc ∧
      profit scenInp = Except.ok p ∧
      tr.length = scenInp.years.length ∧ tc.length = scenInp.years.length ∧
      p.length = scenInp.years.length ∧
      ∀ i, i < scenInp.years.length →
        tr.getD i 0 = (hardware_revenue scenInp).getD i 0 + rr.getD i 0 ∧
        tc.getD i 0 = (hardware_costs scenInp).getD i 0 + rc.getD i 0 ∧
        p.getD i 0 = tr.getD i 0 - tc.getD i 0 :=
  claim_C9 scenInp rfl

/-- C10 (implicit): the margin guard is strict.  For every input of
matching lengths — negative economics included — `profit_margin[i]` is 0
whenever `total_revenue[i] ≤ 0`, not only when it is exactly 0: a year
with strictly negative total revenue gets margin 0, not a negative
percentage and not an error. -/
theorem claim_C10 (inp : ProjInputs)
    (hlen : inp.units_sold.length = inp.years.length) :
    ∃ tr pm, total_revenue inp = Except.ok tr ∧ profit_margin inp = Except.ok pm ∧
      tr.length = inp.years.length ∧ pm.length = inp.years.length ∧
      ∀ i, i < inp.years.length → tr.getD i 0 ≤ 0 → pm.getD i 0 = 0 := by
  refine ⟨_, _, total_revenue_ok inp hlen, profit_margin_ok inp hlen,
    by simp, by simp, ?_⟩
  intro i hi
  rw [getD_map_range (totRevF inp) 0 hi, getD_map_range (pmF inp) 0 hi]
  intro hle
  unfold pmF
  rw [if_neg (not_lt.mpr hle)]

/-- Witness for C10 at the negative-economics input, whose single year has
`total_revenue[0] = -1 < 0` and margin exactly 0. -/
theorem claim_C10_witness :
    ∃ tr pm, total_revenue negEconInp = Except.ok tr ∧
      profit_margin negEconInp = Except.ok pm ∧
      tr.length = negEconInp.years.length ∧ pm.length = negEconInp.years.length ∧
      ∀ i, i < negEconInp.years.length → tr.getD i 0 ≤ 0 → pm.getD i 0 = 0 :=
  claim_C10 negEconInp rfl
